import Mathlib

/-!
# BunkerWatch calibration-table interpolation engine — verification

A shallow embedding of the server-side evaluator in
`src/lambda/bunkerwatch-enhanced-handler.js` (functions `getTrimBounds`,
`getHeelBounds`, `linearInterpolate`, `getUllageBounds`, `getHeelUllageBounds`,
`getHeelCorrectionWithInterpolation`, `getHeelCorrectionWithUllageInterpolation`,
`getSoundingWithUllageInterpolation`, `getSoundingDataWithInterpolation`,
`getCompleteSoundingData`), together with proofs of properties of that engine.

Modelling conventions:
* JavaScript numbers are modelled as rationals (`ℚ`); half-valued axis
  levels are written `mkRat n 2`.
* A stored table cell is `Option ℚ`: `none` models a cell whose
  `parseFloat` yields `NaN` (missing / NULL / non-numeric), `some q` a cell
  parsing to the number `q`.
* `parseFloat(cell) || 0` is `jsNumOr0`, `parseFloat(cell) || null` is
  `jsNumOrNull`, `Math.round(x) || null` is `jsRoundOrNull` (JavaScript
  `Math.round` rounds half-up, which is Mathlib's `round` on `ℚ`).
* The SQL queries are modelled over an in-memory list of rows:
  `SELECT DISTINCT ullage … ORDER BY ullage` produces the sorted list of
  distinct ullages, `WHERE ullage = u LIMIT 1` is a first-match scan, and
  `WHERE ullage IN (l, u) ORDER BY ullage` is filter-then-sort.
* `throw new Error(msg)` is `Except.error msg`.
-/

/-- The thirteen named trim columns of `main_sounding_trim_data`. -/
inductive TrimCol where
  | trim_minus_4_0 | trim_minus_3_0 | trim_minus_2_0 | trim_minus_1_5
  | trim_minus_1_0 | trim_minus_0_5 | trim_0_0 | trim_plus_0_5
  | trim_plus_1_0 | trim_plus_1_5 | trim_plus_2_0 | trim_plus_3_0
  | trim_plus_4_0
deriving DecidableEq, Repr

/-- The eleven named heel columns of `heel_correction_data`. -/
inductive HeelCol where
  | heel_minus_3_0 | heel_minus_2_0 | heel_minus_1_5 | heel_minus_1_0
  | heel_minus_0_5 | heel_0_0 | heel_plus_0_5 | heel_plus_1_0
  | heel_plus_1_5 | heel_plus_2_0 | heel_plus_3_0
deriving DecidableEq, Repr

/-- The fixed trim axis: the `trimRanges` array of `getTrimBounds`,
13 `(value, column)` pairs in ascending value order. -/
def trimRanges : List (ℚ × TrimCol) :=
  [ (-4, .trim_minus_4_0), (-3, .trim_minus_3_0), (-2, .trim_minus_2_0),
    (mkRat (-3) 2, .trim_minus_1_5), (-1, .trim_minus_1_0),
    (mkRat (-1) 2, .trim_minus_0_5), (0, .trim_0_0),
    (mkRat 1 2, .trim_plus_0_5), (1, .trim_plus_1_0),
    (mkRat 3 2, .trim_plus_1_5), (2, .trim_plus_2_0), (3, .trim_plus_3_0),
    (4, .trim_plus_4_0) ]

/-- The fixed heel axis: the `heelRanges` array of `getHeelBounds`,
11 `(value, column)` pairs in ascending value order. -/
def heelRanges : List (ℚ × HeelCol) :=
  [ (-3, .heel_minus_3_0), (-2, .heel_minus_2_0),
    (mkRat (-3) 2, .heel_minus_1_5), (-1, .heel_minus_1_0),
    (mkRat (-1) 2, .heel_minus_0_5), (0, .heel_0_0),
    (mkRat 1 2, .heel_plus_0_5), (1, .heel_plus_1_0),
    (mkRat 3 2, .heel_plus_1_5), (2, .heel_plus_2_0), (3, .heel_plus_3_0) ]

/-- Result shape of `getTrimBounds` / `getHeelBounds`: the JS object is one of
`{exact: true, column}`, `{exact: false, lowerTrim, upperTrim}`
or `{outOfRange: true, message}`. -/
inductive AxisBounds (C : Type) where
  | exact (column : C)
  | bracket (lower upper : ℚ × C)
  | outOfRange (message : String)
deriving DecidableEq, Repr

/-- The `.find(t => t.value === target)` scan of the axis arrays: first
entry whose value equals the target. -/
def findAxisValue {C : Type} (target : ℚ) :
    List (ℚ × C) → Option (ℚ × C)
  | [] => none
  | p :: rest => if p.1 = target then some p else findAxisValue target rest

/-- The adjacent-pair loop shared by `getTrimBounds` and `getHeelBounds`:
the first index `i` with `ranges[i].value < target < ranges[i+1].value`. -/
def findAdjacentBracket {C : Type} (target : ℚ) :
    List (ℚ × C) → Option ((ℚ × C) × (ℚ × C))
  | a :: b :: rest =>
      if a.1 < target ∧ target < b.1 then some (a, b)
      else findAdjacentBracket target (b :: rest)
  | _ => none

/-- The axis-resolution logic common to `getTrimBounds` and `getHeelBounds`
(the two JS functions are textually identical up to the axis array and the
words in the messages): exact match, else adjacent-bracket scan, else an
out-of-range message naming the violated bound and the input. -/
def axisBounds {C : Type} (bigName smallName : String)
    (ranges : List (ℚ × C)) (target : ℚ) : AxisBounds C :=
  match findAxisValue target ranges with
  | some p => .exact p.2
  | none =>
    match findAdjacentBracket target ranges with
    | some (l, u) => .bracket l u
    | none =>
      if target < ((ranges.map Prod.fst).headD 0) then
        .outOfRange (bigName ++ " " ++ toString target ++
          " is below minimum supported " ++ smallName ++ " " ++
          toString ((ranges.map Prod.fst).headD 0))
      else
        .outOfRange (bigName ++ " " ++ toString target ++
          " is above maximum supported " ++ smallName ++ " " ++
          toString ((ranges.map Prod.fst).getLastD 0))

/-- JS `getTrimBounds(targetTrim)`. -/
def getTrimBounds (targetTrim : ℚ) : AxisBounds TrimCol :=
  axisBounds "Trim" "trim" trimRanges targetTrim

/-- JS `getHeelBounds(targetHeel)`. -/
def getHeelBounds (targetHeel : ℚ) : AxisBounds HeelCol :=
  axisBounds "Heel" "heel" heelRanges targetHeel

/-- JS `linearInterpolate(x1, y1, x2, y2, x)`: straight-line interpolation
through `(x1, y1)` and `(x2, y2)` evaluated at `x`, returning `y1` when
`x1 === x2`. -/
def linearInterpolate (x1 y1 x2 y2 x : ℚ) : ℚ :=
  if x1 = x2 then y1 else y1 + (y2 - y1) * ((x - x1) / (x2 - x1))

/-- JS `parseFloat(v) || 0`: a missing / non-numeric cell reads as `0`
(and a stored `0` stays `0`). -/
def jsNumOr0 (v : Option ℚ) : ℚ := v.getD 0

/-- JS `parseFloat(v) || null`: a missing / non-numeric cell and a stored `0`
both read as `null` (absent). -/
def jsNumOrNull (v : Option ℚ) : Option ℚ :=
  match v with
  | none => none
  | some q => if q = 0 then none else some q

/-- JS `Math.round(q) || null`: round half-up, then report a rounded value of
`0` as `null` (absent). -/
def jsRoundOrNull (q : ℚ) : Option ℚ :=
  if round q = 0 then none else some ((round q : ℤ) : ℚ)

/-- A row of `main_sounding_trim_data` for one compartment: the `ullage` key
plus one cell per trim column and the auxiliary cells. -/
structure SRow where
  ullage : ℚ
  trim : TrimCol → Option ℚ
  sound : Option ℚ
  lcg : Option ℚ
  tcg : Option ℚ
  vcg : Option ℚ
  iy : Option ℚ

/-- A row of `heel_correction_data` for one compartment. -/
structure HRow where
  ullage : ℚ
  heel : HeelCol → Option ℚ

/-- Result shape of `getUllageBounds` / `getHeelUllageBounds`. -/
inductive UllageBounds where
  | exact (ullage : ℚ)
  | bracket (lowerUllage upperUllage : ℚ)
  | outOfRange (message : String)
deriving DecidableEq, Repr

/-- The `ullages.includes(target)` membership test. -/
def memUllage (target : ℚ) : List ℚ → Bool
  | [] => false
  | u :: rest => if u = target then true else memUllage target rest

/-- The adjacent-pair loop of the ullage-bounds functions. -/
def findUllageBracket (target : ℚ) : List ℚ → Option (ℚ × ℚ)
  | a :: b :: rest =>
      if a < target ∧ target < b then some (a, b)
      else findUllageBracket target (b :: rest)
  | _ => none

/-- The resolution logic common to `getUllageBounds` and
`getHeelUllageBounds`, over the compartment's distinct sorted ullages:
empty-table message, exact membership, adjacent-bracket loop, or an
out-of-range message naming the violated bound and the input. -/
def ullageBoundsCore (emptyMsg smallName : String)
    (ullages : List ℚ) (target : ℚ) : UllageBounds :=
  match ullages with
  | [] => .outOfRange emptyMsg
  | u0 :: _ =>
    if memUllage target ullages then .exact target
    else
      match findUllageBracket target ullages with
      | some (l, u) => .bracket l u
      | none =>
        if target < u0 then
          .outOfRange ("Ullage " ++ toString target ++ " is below minimum " ++
            smallName ++ " " ++ toString u0)
        else
          .outOfRange ("Ullage " ++ toString target ++ " is above maximum " ++
            smallName ++ " " ++ toString (ullages.getLastD u0))

/-- Insert a value into a sorted duplicate-free list of ullages, keeping it
sorted and duplicate-free. -/
def insertSortedUnique (x : ℚ) : List ℚ → List ℚ
  | [] => [x]
  | y :: rest =>
      if x < y then x :: y :: rest
      else if x = y then y :: rest
      else y :: insertSortedUnique x rest

/-- SQL `SELECT DISTINCT ullage … ORDER BY ullage`: the distinct ullages of the
rows, in ascending order. -/
def distinctSortedUllages (ullages : List ℚ) : List ℚ :=
  ullages.foldr insertSortedUnique []

/-- JS `getUllageBounds(compartmentId, targetUllage)` over the compartment's
sounding rows. -/
def getUllageBounds (rows : List SRow) (targetUllage : ℚ) : UllageBounds :=
  ullageBoundsCore "No ullage data found for this compartment" "ullage"
    (distinctSortedUllages (rows.map SRow.ullage)) targetUllage

/-- JS `getHeelUllageBounds(compartmentId, targetUllage)` over the
compartment's heel-correction rows. -/
def getHeelUllageBounds (rows : List HRow) (targetUllage : ℚ) : UllageBounds :=
  ullageBoundsCore "No heel ullage data found for this compartment"
    "heel correction ullage"
    (distinctSortedUllages (rows.map HRow.ullage)) targetUllage

/-- SQL `WHERE ullage = u LIMIT 1` on the sounding table: first matching row. -/
def findSRowByUllage (u : ℚ) : List SRow → Option SRow
  | [] => none
  | r :: rest => if r.ullage = u then some r else findSRowByUllage u rest

/-- SQL `WHERE ullage = u LIMIT 1` on the heel table: first matching row. -/
def findHRowByUllage (u : ℚ) : List HRow → Option HRow
  | [] => none
  | r :: rest => if r.ullage = u then some r else findHRowByUllage u rest

/-- SQL `WHERE ullage IN (l, u)` on the sounding table. -/
def filterSRowsByUllages (l u : ℚ) : List SRow → List SRow
  | [] => []
  | r :: rest =>
      if r.ullage = l ∨ r.ullage = u then r :: filterSRowsByUllages l u rest
      else filterSRowsByUllages l u rest

/-- SQL `WHERE ullage IN (l, u)` on the heel table. -/
def filterHRowsByUllages (l u : ℚ) : List HRow → List HRow
  | [] => []
  | r :: rest =>
      if r.ullage = l ∨ r.ullage = u then r :: filterHRowsByUllages l u rest
      else filterHRowsByUllages l u rest

/-- Sorted insertion of a sounding row by ullage (`ORDER BY ullage`). -/
def insertSRowByUllage (r : SRow) : List SRow → List SRow
  | [] => [r]
  | s :: rest =>
      if r.ullage ≤ s.ullage then r :: s :: rest
      else s :: insertSRowByUllage r rest

/-- SQL `ORDER BY ullage` on sounding rows. -/
def sortSRowsByUllage (rows : List SRow) : List SRow :=
  rows.foldr insertSRowByUllage []

/-- Sorted insertion of a heel row by ullage (`ORDER BY ullage`). -/
def insertHRowByUllage (r : HRow) : List HRow → List HRow
  | [] => [r]
  | s :: rest =>
      if r.ullage ≤ s.ullage then r :: s :: rest
      else s :: insertHRowByUllage r rest

/-- SQL `ORDER BY ullage` on heel rows. -/
def sortHRowsByUllage (rows : List HRow) : List HRow :=
  rows.foldr insertHRowByUllage []

/-- Interpolation-bounds provenance (`interpolation_bounds` in the JS
results): each axis block is present only when that axis was bracketed. -/
structure InterpBounds where
  ullage : Option (ℚ × ℚ)
  trim : Option (ℚ × ℚ)
  heel : Option (ℚ × ℚ)
deriving DecidableEq, Repr

/-- Result of `getSoundingWithUllageInterpolation` /
`getSoundingDataWithInterpolation`. -/
structure SoundingResult where
  volume : ℚ
  sound : Option ℚ
  ullage : ℚ
  lcg : ℚ
  tcg : ℚ
  vcg : ℚ
  iy : ℚ
  interpolation_used : String
  interpolation_bounds : Option InterpBounds
deriving DecidableEq, Repr

/-- Result of `getHeelCorrectionWithInterpolation` /
`getHeelCorrectionWithUllageInterpolation`. -/
structure HeelResult where
  heel_correction : ℚ
  interpolation_used : String
  interpolation_bounds : Option InterpBounds
deriving DecidableEq, Repr

/-- JS `getSoundingWithUllageInterpolation(compartmentId, targetUllage,
trimColumn, targetTrim)`: the trim axis already resolved to a single exact
column; resolve the ullage and either look up the row directly or
interpolate every attribute across the two bracketing rows. -/
def getSoundingWithUllageInterpolation (rows : List SRow) (targetUllage : ℚ)
    (trimColumn : TrimCol) : Except String SoundingResult :=
  match getUllageBounds rows targetUllage with
  | .outOfRange msg => .error msg
  | .exact u =>
    match findSRowByUllage u rows with
    | none => .error "No data found for exact match"
    | some row =>
      .ok ⟨jsNumOr0 (row.trim trimColumn), jsNumOrNull row.sound, row.ullage,
        jsNumOr0 row.lcg, jsNumOr0 row.tcg, jsNumOr0 row.vcg, jsNumOr0 row.iy,
        "none", none⟩
  | .bracket lowerUllage upperUllage =>
    match sortSRowsByUllage (filterSRowsByUllages lowerUllage upperUllage rows) with
    | [lowerRow, upperRow] =>
      .ok ⟨linearInterpolate lowerUllage (jsNumOr0 (lowerRow.trim trimColumn))
              upperUllage (jsNumOr0 (upperRow.trim trimColumn)) targetUllage,
        jsRoundOrNull (linearInterpolate lowerUllage (jsNumOr0 lowerRow.sound)
              upperUllage (jsNumOr0 upperRow.sound) targetUllage),
        targetUllage,
        linearInterpolate lowerUllage (jsNumOr0 lowerRow.lcg)
              upperUllage (jsNumOr0 upperRow.lcg) targetUllage,
        linearInterpolate lowerUllage (jsNumOr0 lowerRow.tcg)
              upperUllage (jsNumOr0 upperRow.tcg) targetUllage,
        linearInterpolate lowerUllage (jsNumOr0 lowerRow.vcg)
              upperUllage (jsNumOr0 upperRow.vcg) targetUllage,
        linearInterpolate lowerUllage (jsNumOr0 lowerRow.iy)
              upperUllage (jsNumOr0 upperRow.iy) targetUllage,
        "ullage_only", some ⟨some (lowerUllage, upperUllage), none, none⟩⟩
    | _ => .error "Insufficient data for ullage interpolation"

/-- JS `getSoundingDataWithInterpolation(compartmentId, targetUllage,
targetTrim)`: resolve the trim axis; on an exact column delegate to
`getSoundingWithUllageInterpolation`; on a trim bracket resolve the ullage
and interpolate across the trim columns (and, when the ullage is also
bracketed, across the two rows as well). -/
def getSoundingDataWithInterpolation (rows : List SRow) (targetUllage : ℚ)
    (targetTrim : ℚ) : Except String SoundingResult :=
  match getTrimBounds targetTrim with
  | .outOfRange msg => .error msg
  | .exact column => getSoundingWithUllageInterpolation rows targetUllage column
  | .bracket lowerTrim upperTrim =>
    match getUllageBounds rows targetUllage with
    | .outOfRange msg => .error msg
    | .exact exactUllage =>
      match findSRowByUllage exactUllage rows with
      | none => .error "No data found for exact ullage match"
      | some row =>
        .ok ⟨linearInterpolate lowerTrim.1 (jsNumOr0 (row.trim lowerTrim.2))
                upperTrim.1 (jsNumOr0 (row.trim upperTrim.2)) targetTrim,
          jsNumOrNull row.sound, targetUllage,
          jsNumOr0 row.lcg, jsNumOr0 row.tcg, jsNumOr0 row.vcg, jsNumOr0 row.iy,
          "trim_only", none⟩
    | .bracket lowerUllage upperUllage =>
      match sortSRowsByUllage (filterSRowsByUllages lowerUllage upperUllage rows) with
      | [lowerUllageRow, upperUllageRow] =>
        .ok ⟨linearInterpolate lowerUllage
                (linearInterpolate lowerTrim.1 (jsNumOr0 (lowerUllageRow.trim lowerTrim.2))
                  upperTrim.1 (jsNumOr0 (lowerUllageRow.trim upperTrim.2)) targetTrim)
                upperUllage
                (linearInterpolate lowerTrim.1 (jsNumOr0 (upperUllageRow.trim lowerTrim.2))
                  upperTrim.1 (jsNumOr0 (upperUllageRow.trim upperTrim.2)) targetTrim)
                targetUllage,
          jsRoundOrNull (linearInterpolate lowerUllage (jsNumOr0 lowerUllageRow.sound)
                upperUllage (jsNumOr0 upperUllageRow.sound) targetUllage),
          targetUllage,
          linearInterpolate lowerUllage (jsNumOr0 lowerUllageRow.lcg)
                upperUllage (jsNumOr0 upperUllageRow.lcg) targetUllage,
          linearInterpolate lowerUllage (jsNumOr0 lowerUllageRow.tcg)
                upperUllage (jsNumOr0 upperUllageRow.tcg) targetUllage,
          linearInterpolate lowerUllage (jsNumOr0 lowerUllageRow.vcg)
                upperUllage (jsNumOr0 upperUllageRow.vcg) targetUllage,
          linearInterpolate lowerUllage (jsNumOr0 lowerUllageRow.iy)
                upperUllage (jsNumOr0 upperUllageRow.iy) targetUllage,
          "bilinear",
          some ⟨some (lowerUllage, upperUllage), some (lowerTrim.1, upperTrim.1), none⟩⟩
      | _ => .error "Insufficient data for bilinear interpolation"

/-- JS `getHeelCorrectionWithUllageInterpolation(compartmentId, targetUllage,
heelColumn, targetHeel)`: the heel axis already resolved to a single exact
column; resolve the heel-table ullage and look up or interpolate the
correction. -/
def getHeelCorrectionWithUllageInterpolation (rows : List HRow)
    (targetUllage : ℚ) (heelColumn : HeelCol) : Except String HeelResult :=
  match getHeelUllageBounds rows targetUllage with
  | .outOfRange msg => .error msg
  | .exact u =>
    match findHRowByUllage u rows with
    | none => .error "No heel correction data found for exact match"
    | some row => .ok ⟨jsNumOr0 (row.heel heelColumn), "none", none⟩
  | .bracket lowerUllage upperUllage =>
    match sortHRowsByUllage (filterHRowsByUllages lowerUllage upperUllage rows) with
    | [lowerRow, upperRow] =>
      .ok ⟨linearInterpolate lowerUllage (jsNumOr0 (lowerRow.heel heelColumn))
              upperUllage (jsNumOr0 (upperRow.heel heelColumn)) targetUllage,
        "ullage_only", some ⟨some (lowerUllage, upperUllage), none, none⟩⟩
    | _ => .error "Insufficient heel correction data for ullage interpolation"

/-- JS `getHeelCorrectionWithInterpolation(compartmentId, targetUllage,
targetHeel)`: resolve the heel axis; on an exact column delegate to
`getHeelCorrectionWithUllageInterpolation`; on a heel bracket resolve the
heel-table ullage and interpolate across the heel columns (and, when the
ullage is also bracketed, across the two rows as well). -/
def getHeelCorrectionWithInterpolation (rows : List HRow) (targetUllage : ℚ)
    (targetHeel : ℚ) : Except String HeelResult :=
  match getHeelBounds targetHeel with
  | .outOfRange msg => .error msg
  | .exact column => getHeelCorrectionWithUllageInterpolation rows targetUllage column
  | .bracket lowerHeel upperHeel =>
    match getHeelUllageBounds rows targetUllage with
    | .outOfRange msg => .error msg
    | .exact exactUllage =>
      match findHRowByUllage exactUllage rows with
      | none => .error "No heel correction data found for exact ullage match"
      | some row =>
        .ok ⟨linearInterpolate lowerHeel.1 (jsNumOr0 (row.heel lowerHeel.2))
                upperHeel.1 (jsNumOr0 (row.heel upperHeel.2)) targetHeel,
          "heel_only", none⟩
    | .bracket lowerUllage upperUllage =>
      match sortHRowsByUllage (filterHRowsByUllages lowerUllage upperUllage rows) with
      | [lowerUllageRow, upperUllageRow] =>
        .ok ⟨linearInterpolate lowerUllage
                (linearInterpolate lowerHeel.1 (jsNumOr0 (lowerUllageRow.heel lowerHeel.2))
                  upperHeel.1 (jsNumOr0 (lowerUllageRow.heel upperHeel.2)) targetHeel)
                upperUllage
                (linearInterpolate lowerHeel.1 (jsNumOr0 (upperUllageRow.heel lowerHeel.2))
                  upperHeel.1 (jsNumOr0 (upperUllageRow.heel upperHeel.2)) targetHeel)
                targetUllage,
          "bilinear",
          some ⟨some (lowerUllage, upperUllage), none, some (lowerHeel.1, upperHeel.1)⟩⟩
      | _ => .error "Insufficient heel correction data for bilinear interpolation"

/-- The `heel_interpolation` provenance block of the composite result. -/
structure HeelInterpInfo where
  type : String
  bounds : Option InterpBounds
  error : Option String
deriving DecidableEq, Repr

/-- The composite result assembled by `getCompleteSoundingData`. -/
structure CompleteResult where
  base_volume : ℚ
  heel_correction : ℚ
  final_volume : ℚ
  sound : Option ℚ
  ullage : ℚ
  lcg : ℚ
  tcg : ℚ
  vcg : ℚ
  iy : ℚ
  main_interpolation_type : String
  main_interpolation_bounds : Option InterpBounds
  heel_interpolation : Option HeelInterpInfo
deriving DecidableEq, Repr

/-- JS `getCompleteSoundingData(compartmentId, targetUllage, targetTrim,
targetHeel)`: run the sounding evaluator (fatal on failure); when the heel
is absent (`undefined`/`null`) or `0`, skip heel correction entirely;
otherwise run the heel evaluator, adding its correction on success and
downgrading its failure to an error recorded in the `heel_interpolation`
block with `heel_correction = 0`. -/
def getCompleteSoundingData (srows : List SRow) (hrows : List HRow)
    (targetUllage targetTrim : ℚ) (targetHeel : Option ℚ) :
    Except String CompleteResult :=
  match getSoundingDataWithInterpolation srows targetUllage targetTrim with
  | .error msg => .error msg
  | .ok base =>
    match targetHeel with
    | none =>
      .ok ⟨base.volume, 0, base.volume, base.sound, base.ullage, base.lcg,
        base.tcg, base.vcg, base.iy, base.interpolation_used,
        base.interpolation_bounds, none⟩
    | some h =>
      if h = 0 then
        .ok ⟨base.volume, 0, base.volume, base.sound, base.ullage, base.lcg,
          base.tcg, base.vcg, base.iy, base.interpolation_used,
          base.interpolation_bounds, none⟩
      else
        match getHeelCorrectionWithInterpolation hrows targetUllage h with
        | .ok hc =>
          .ok ⟨base.volume, hc.heel_correction, base.volume + hc.heel_correction,
            base.sound, base.ullage, base.lcg, base.tcg, base.vcg, base.iy,
            base.interpolation_used, base.interpolation_bounds,
            some ⟨hc.interpolation_used, hc.interpolation_bounds, none⟩⟩
        | .error e =>
          .ok ⟨base.volume, 0, base.volume, base.sound, base.ullage, base.lcg,
            base.tcg, base.vcg, base.iy, base.interpolation_used,
            base.interpolation_bounds, some ⟨"error", none, some e⟩⟩

/-- The numeric interpolation formula, unfolded on distinct abscissas. -/
theorem linearInterpolate_of_ne {x1 y1 x2 y2 x : ℚ} (h : x1 ≠ x2) :
    linearInterpolate x1 y1 x2 y2 x = y1 + (y2 - y1) * ((x - x1) / (x2 - x1)) := by
  simp [linearInterpolate, h]

/-- Interpolating between two equal ordinates yields that ordinate,
whatever the abscissas. -/
theorem linearInterpolate_const (x1 x2 y x : ℚ) :
    linearInterpolate x1 y x2 y x = y := by
  unfold linearInterpolate
  split <;> ring

/-- C8: the Linear Interpolator is a total function on rationals (it is a
plain Lean function with no error path), and in the degenerate case where
both abscissas coincide with the query point it returns the first ordinate
`y1` rather than dividing by zero, for any two distinct ordinates. -/
theorem linearInterpolate_degenerate (x y1 y2 : ℚ) (h : y1 ≠ y2) :
    linearInterpolate x y1 x y2 x = y1 := by
  simp [linearInterpolate]

/-- Witness for C8 at `x = 3`, `y1 = 5`, `y2 = 7`. -/
theorem linearInterpolate_degenerate_witness :
    (5 : ℚ) ≠ 7 ∧ linearInterpolate 3 5 3 7 3 = 5 :=
  ⟨by norm_num, linearInterpolate_degenerate 3 5 7 (by norm_num)⟩

/-- C7 counterexample: on an empty compartment table the ullage-bounds
functions do return the distinct no-data message, but they return it through
the very same `outOfRange` result shape used for range violations (the JS
code returns `{outOfRange: true, message: 'No ullage data found …'}`), so
the failure IS an out-of-range-shaped error, contrary to the claim. -/
theorem empty_ullage_set_is_outOfRange_shaped :
    getUllageBounds [] 100 =
      .outOfRange "No ullage data found for this compartment" ∧
    getHeelUllageBounds [] 100 =
      .outOfRange "No heel ullage data found for this compartment" :=
  ⟨rfl, rfl⟩

/-- C7 (amended): for every query ullage, an empty compartment table makes
`getUllageBounds` (resp. `getHeelUllageBounds`) fail with the distinct
message `'No ullage data found for this compartment'` (resp.
`'No heel ullage data found for this compartment'`), which names no bound;
the failure is however delivered through the same `outOfRange` flag as
range violations and is distinguishable from them only by this message. -/
theorem empty_ullage_set_distinct_message (u : ℚ) :
    getUllageBounds [] u =
      .outOfRange "No ullage data found for this compartment" ∧
    getHeelUllageBounds [] u =
      .outOfRange "No heel ullage data found for this compartment" :=
  ⟨rfl, rfl⟩

/-- The one-row table of the C2 counterexample: its stored `sound` cell is
the (perfectly legal) physical reading `0`. -/
def c2Row : SRow :=
  ⟨100, fun _ => some 25, some 0, some 1, some 2, some 3, some 4⟩

/-- C2 counterexample: querying the table `[c2Row]` exactly at its stored
ullage `100` with exact trim `0` takes the direct-lookup path (provenance
`'none'`), yet the stored `sound = 0` is NOT returned as stored: the JS
`parseFloat(row.sound) || null` maps it to `null` (absent), so the claim
that the stored values come back unmodified fails on `sound`. -/
theorem exact_lookup_modifies_zero_sound :
    c2Row.sound = some 0 ∧
    getSoundingDataWithInterpolation [c2Row] 100 0 =
      .ok ⟨25, none, 100, 1, 2, 3, 4, "none", none⟩ :=
  ⟨rfl, by rfl⟩

/-- C2 (amended): for every query whose trim resolves exactly to a column
and whose ullage resolves exactly to a stored row, the Sounding Evaluator
performs a direct row/column lookup with no interpolation and provenance
`'none'`; the stored cells are returned through the source's coercions:
each numeric cell is read as `parseFloat(cell) || 0` (missing cells become
`0`, stored numbers are unchanged) and `sound` is read as
`parseFloat(sound) || null`, so a stored non-zero sound is returned as
stored while a zero or missing sound is reported absent. -/
theorem exact_exact_direct_lookup (rows : List SRow) (u t u' : ℚ)
    (col : TrimCol) (row : SRow)
    (h1 : getTrimBounds t = .exact col)
    (h2 : getUllageBounds rows u = .exact u')
    (h3 : findSRowByUllage u' rows = some row) :
    getSoundingDataWithInterpolation rows u t =
      .ok ⟨jsNumOr0 (row.trim col), jsNumOrNull row.sound, row.ullage,
        jsNumOr0 row.lcg, jsNumOr0 row.tcg, jsNumOr0 row.vcg,
        jsNumOr0 row.iy, "none", none⟩ ∧
    (∀ s : ℚ, row.sound = some s → s ≠ 0 → jsNumOrNull row.sound = some s) := by
  constructor
  · simp [getSoundingDataWithInterpolation, getSoundingWithUllageInterpolation,
      h1, h2, h3]
  · intro s hs hs0
    simp [jsNumOrNull, hs, hs0]

/-- Witness for C2's amended theorem: a one-row table with a non-zero
stored sound, queried exactly. -/
theorem exact_exact_direct_lookup_witness :
    getSoundingDataWithInterpolation
      [⟨100, fun _ => some 25, some 7, some 1, some 2, some 3, some 4⟩] 100 0 =
      .ok ⟨25, some 7, 100, 1, 2, 3, 4, "none", none⟩ :=
  ((exact_exact_direct_lookup
      [⟨100, fun _ => some 25, some 7, some 1, some 2, some 3, some 4⟩]
      100 0 100 .trim_0_0
      ⟨100, fun _ => some 25, some 7, some 1, some 2, some 3, some 4⟩
      (by decide) (by decide) (by rfl)).1).trans (by rfl)

/-- C3: on every sounding table, heel table, ullage and trim, calling the
composite resolver with heel absent and calling it with heel numerically
zero produce identical results; and whenever the sounding stage succeeds
with base result `base`, both calls return base volume as final volume,
`heel_correction = 0`, and no heel-interpolation block (heel correction
"not applicable"). -/
theorem heel_absent_eq_heel_zero (srows : List SRow) (hrows : List HRow)
    (u t : ℚ) :
    getCompleteSoundingData srows hrows u t none =
      getCompleteSoundingData srows hrows u t (some 0) ∧
    (∀ base, getSoundingDataWithInterpolation srows u t = .ok base →
      getCompleteSoundingData srows hrows u t none =
        .ok ⟨base.volume, 0, base.volume, base.sound, base.ullage, base.lcg,
          base.tcg, base.vcg, base.iy, base.interpolation_used,
          base.interpolation_bounds, none⟩) := by
  constructor
  · unfold getCompleteSoundingData
    cases getSoundingDataWithInterpolation srows u t <;> simp
  · intro base hbase
    simp [getCompleteSoundingData, hbase]

/-- Witness for C3 on the empty tables (where the sounding stage fails
identically) and on a concrete one-row table. -/
theorem heel_absent_eq_heel_zero_witness :
    getCompleteSoundingData [c2Row] [] 100 0 none =
      getCompleteSoundingData [c2Row] [] 100 0 (some 0) ∧
    getCompleteSoundingData [c2Row] [] 100 0 none =
      .ok ⟨25, 0, 25, none, 100, 1, 2, 3, 4, "none", none, none⟩ :=
  ⟨(heel_absent_eq_heel_zero [c2Row] [] 100 0).1,
    ((heel_absent_eq_heel_zero [c2Row] [] 100 0).2
      ⟨25, none, 100, 1, 2, 3, 4, "none", none⟩ (by rfl)).trans (by rfl)⟩

/-- C4: whenever the sounding stage succeeds with base result `base` and a
non-zero heel is supplied but the heel-correction stage fails with message
`e`, the composite resolver still returns success: `heel_correction = 0`,
`final_volume = base.volume`, and the heel-stage error message is recorded
in the result's heel-interpolation provenance block (type `'error'`)
rather than propagated as a failure. -/
theorem heel_failure_partial_success (srows : List SRow) (hrows : List HRow)
    (u t h : ℚ) (base : SoundingResult) (e : String)
    (h1 : getSoundingDataWithInterpolation srows u t = .ok base)
    (h2 : h ≠ 0)
    (h3 : getHeelCorrectionWithInterpolation hrows u h = .error e) :
    getCompleteSoundingData srows hrows u t (some h) =
      .ok ⟨base.volume, 0, base.volume, base.sound, base.ullage, base.lcg,
        base.tcg, base.vcg, base.iy, base.interpolation_used,
        base.interpolation_bounds, some ⟨"error", none, some e⟩⟩ := by
  simp [getCompleteSoundingData, h1, h2, h3]

/-- Witness for C4: valid one-row sounding table, empty heel table, heel 1:
the heel stage fails with the no-heel-data message, the query succeeds. -/
theorem heel_failure_partial_success_witness :
    getCompleteSoundingData [c2Row] [] 100 0 (some 1) =
      .ok ⟨25, 0, 25, none, 100, 1, 2, 3, 4, "none", none,
        some ⟨"error", none,
          some "No heel ullage data found for this compartment"⟩⟩ :=
  heel_failure_partial_success [c2Row] [] 100 0 1
    ⟨25, none, 100, 1, 2, 3, 4, "none", none⟩
    "No heel ullage data found for this compartment"
    (by rfl) (by norm_num) (by rfl)

/-- C1: for every sounding query in which both the trim and the ullage are
bracketed (and the two bracketing rows are found), the evaluator's result is
exactly the two-stage description: for each of the two bracketing ullage
rows, interpolate across the two bracketing trim columns, then interpolate
the two row values across the ullage bracket; the same two-stage scheme
applied to `lcg`, `tcg`, `vcg`, `iy` (whose per-row value is carried by both
trim endpoints, the table storing a single cell per row) and to `sound`,
which is then rounded to the nearest integer (a rounded zero being reported
absent); provenance is `'bilinear'` with the trim and ullage bracket bounds
actually used. -/
theorem bilinear_two_stage_interpolation (rows : List SRow) (u t l hi : ℚ)
    (lowerT upperT : ℚ × TrimCol) (r1 r2 : SRow)
    (h1 : getTrimBounds t = .bracket lowerT upperT)
    (h2 : getUllageBounds rows u = .bracket l hi)
    (h3 : sortSRowsByUllage (filterSRowsByUllages l hi rows) = [r1, r2]) :
    getSoundingDataWithInterpolation rows u t =
      .ok ⟨linearInterpolate l
            (linearInterpolate lowerT.1 (jsNumOr0 (r1.trim lowerT.2))
              upperT.1 (jsNumOr0 (r1.trim upperT.2)) t)
            hi
            (linearInterpolate lowerT.1 (jsNumOr0 (r2.trim lowerT.2))
              upperT.1 (jsNumOr0 (r2.trim upperT.2)) t)
            u,
        jsRoundOrNull (linearInterpolate l
            (linearInterpolate lowerT.1 (jsNumOr0 r1.sound)
              upperT.1 (jsNumOr0 r1.sound) t)
            hi
            (linearInterpolate lowerT.1 (jsNumOr0 r2.sound)
              upperT.1 (jsNumOr0 r2.sound) t)
            u),
        u,
        linearInterpolate l
            (linearInterpolate lowerT.1 (jsNumOr0 r1.lcg)
              upperT.1 (jsNumOr0 r1.lcg) t)
            hi
            (linearInterpolate lowerT.1 (jsNumOr0 r2.lcg)
              upperT.1 (jsNumOr0 r2.lcg) t)
            u,
        linearInterpolate l
            (linearInterpolate lowerT.1 (jsNumOr0 r1.tcg)
              upperT.1 (jsNumOr0 r1.tcg) t)
            hi
            (linearInterpolate lowerT.1 (jsNumOr0 r2.tcg)
              upperT.1 (jsNumOr0 r2.tcg) t)
            u,
        linearInterpolate l
            (linearInterpolate lowerT.1 (jsNumOr0 r1.vcg)
              upperT.1 (jsNumOr0 r1.vcg) t)
            hi
            (linearInterpolate lowerT.1 (jsNumOr0 r2.vcg)
              upperT.1 (jsNumOr0 r2.vcg) t)
            u,
        linearInterpolate l
            (linearInterpolate lowerT.1 (jsNumOr0 r1.iy)
              upperT.1 (jsNumOr0 r1.iy) t)
            hi
            (linearInterpolate lowerT.1 (jsNumOr0 r2.iy)
              upperT.1 (jsNumOr0 r2.iy) t)
            u,
        "bilinear", some ⟨some (l, hi), some (lowerT.1, upperT.1), none⟩⟩ := by
  simp [getSoundingDataWithInterpolation, h1, h2, h3, linearInterpolate_const]

/-- First row of the C1 witness table: ullage 100, `trim_0_0 = 50`,
`trim_plus_0_5 = 54`. -/
def c1RowA : SRow :=
  ⟨100,
    fun c => match c with
      | .trim_0_0 => some 50
      | .trim_plus_0_5 => some 54
      | _ => none,
    some 10, some 1, none, some 4, none⟩

/-- Second row of the C1 witness table: ullage 200, `trim_0_0 = 70`,
`trim_plus_0_5 = 74`. -/
def c1RowB : SRow :=
  ⟨200,
    fun c => match c with
      | .trim_0_0 => some 70
      | .trim_plus_0_5 => some 74
      | _ => none,
    some 20, some 3, none, some 4, none⟩

/-- Witness for C1 at trim `0.25` (bracketed by `0` and `0.5`) and ullage
`150` (bracketed by `100` and `200`). -/
theorem bilinear_two_stage_interpolation_witness :
    getSoundingDataWithInterpolation [c1RowA, c1RowB] 150 (mkRat 1 4) =
      .ok ⟨62, some 15, 150, 2, 0, 4, 0, "bilinear",
        some ⟨some (100, 200), some (0, mkRat 1 2), none⟩⟩ :=
  (bilinear_two_stage_interpolation [c1RowA, c1RowB] 150 (mkRat 1 4) 100 200
      (0, .trim_0_0) (mkRat 1 2, .trim_plus_0_5) c1RowA c1RowB
      (by decide) (by decide) (by rfl)).trans
    (by norm_num [c1RowA, c1RowB, jsNumOr0, jsRoundOrNull, linearInterpolate,
      Rat.mkRat_eq_div, round_eq])

/-- C6: in both sounding paths with a bracketed ullage (provenance
`ullage_only`, where the trim is exact, and `bilinear`, where the trim is
also bracketed), the returned `sound` is the linear interpolation of the two
bracketing rows' sound values across the ullage bracket, rounded half-up to
the nearest integer — except that a rounded value of zero is reported as
absent (`none`) rather than as zero. -/
theorem interpolated_sound_rounded_zero_absent :
    (∀ (rows : List SRow) (u t l hi : ℚ) (col : TrimCol) (r1 r2 : SRow),
      getTrimBounds t = .exact col →
      getUllageBounds rows u = .bracket l hi →
      sortSRowsByUllage (filterSRowsByUllages l hi rows) = [r1, r2] →
      (getSoundingDataWithInterpolation rows u t).map SoundingResult.sound =
        .ok (if round (linearInterpolate l (jsNumOr0 r1.sound)
                hi (jsNumOr0 r2.sound) u) = 0 then none
             else some ((round (linearInterpolate l (jsNumOr0 r1.sound)
                hi (jsNumOr0 r2.sound) u) : ℤ) : ℚ))) ∧
    (∀ (rows : List SRow) (u t l hi : ℚ) (lowerT upperT : ℚ × TrimCol)
        (r1 r2 : SRow),
      getTrimBounds t = .bracket lowerT upperT →
      getUllageBounds rows u = .bracket l hi →
      sortSRowsByUllage (filterSRowsByUllages l hi rows) = [r1, r2] →
      (getSoundingDataWithInterpolation rows u t).map SoundingResult.sound =
        .ok (if round (linearInterpolate l (jsNumOr0 r1.sound)
                hi (jsNumOr0 r2.sound) u) = 0 then none
             else some ((round (linearInterpolate l (jsNumOr0 r1.sound)
                hi (jsNumOr0 r2.sound) u) : ℤ) : ℚ))) := by
  constructor
  · intro rows u t l hi col r1 r2 h1 h2 h3
    simp [getSoundingDataWithInterpolation, getSoundingWithUllageInterpolation,
      h1, h2, h3, jsRoundOrNull, Except.map]
  · intro rows u t l hi lowerT upperT r1 r2 h1 h2 h3
    simp [getSoundingDataWithInterpolation, h1, h2, h3, jsRoundOrNull, Except.map]

/-- Witness for C6: in the `ullage_only` path a table whose interpolated
sound rounds to zero yields an absent sound, and in the `bilinear` path the
C1 witness table yields the rounded interpolation `15`. -/
theorem interpolated_sound_rounded_zero_absent_witness :
    (getSoundingDataWithInterpolation
        [⟨100, fun _ => some 5, some 0, none, none, none, none⟩,
         ⟨200, fun _ => some 9, some 0, none, none, none, none⟩]
        150 0).map SoundingResult.sound = .ok none ∧
    (getSoundingDataWithInterpolation [c1RowA, c1RowB] 150 (mkRat 1 4)).map
        SoundingResult.sound = .ok (some 15) := by
  constructor
  · exact (interpolated_sound_rounded_zero_absent.1
      [⟨100, fun _ => some 5, some 0, none, none, none, none⟩,
       ⟨200, fun _ => some 9, some 0, none, none, none, none⟩]
      150 0 100 200 .trim_0_0
      ⟨100, fun _ => some 5, some 0, none, none, none, none⟩
      ⟨200, fun _ => some 9, some 0, none, none, none, none⟩
      (by decide) (by decide) (by rfl)).trans
      (by norm_num [jsNumOr0, linearInterpolate])
  · exact (interpolated_sound_rounded_zero_absent.2
      [c1RowA, c1RowB] 150 (mkRat 1 4) 100 200
      (0, .trim_0_0) (mkRat 1 2, .trim_plus_0_5) c1RowA c1RowB
      (by decide) (by decide) (by rfl)).trans
      (by norm_num [c1RowA, c1RowB, jsNumOr0, linearInterpolate, round_eq])

/-- The 100 cm row of the spec's scenario table: `trim_0_0 = 50` m³. -/
def scenarioRow100 : SRow :=
  ⟨100, fun c => match c with | .trim_0_0 => some 50 | _ => none,
    none, none, none, none, none⟩

/-- The 200 cm row of the spec's scenario table: `trim_0_0 = 70` m³. -/
def scenarioRow200 : SRow :=
  ⟨200, fun c => match c with | .trim_0_0 => some 70 | _ => none,
    none, none, none, none, none⟩

/-- C9: for any two sounding rows with increasing ullages and stored values
`v1`, `v2` in an exactly-matched trim column, querying the arithmetic-mean
ullage returns base volume `(v1+v2)/2` with provenance `ullage_only`; and in
particular the spec's scenario — rows at ullages 100 and 200 with
`trim_0_0` values 50 and 70, queried at `(ullage 150, trim 0, heel absent)`
— returns `base_volume = 60`, `final_volume = 60`, heel correction `0`,
provenance `ullage_only`. -/
theorem midpoint_interpolation :
    (∀ (r1 r2 : SRow) (t v1 v2 : ℚ) (col : TrimCol),
      getTrimBounds t = .exact col →
      r1.ullage < r2.ullage →
      r1.trim col = some v1 →
      r2.trim col = some v2 →
      (getSoundingDataWithInterpolation [r1, r2]
          ((r1.ullage + r2.ullage) / 2) t).map
        (fun r => (r.volume, r.interpolation_used)) =
        .ok ((v1 + v2) / 2, "ullage_only")) ∧
    getCompleteSoundingData [scenarioRow100, scenarioRow200] [] 150 0 none =
      .ok ⟨60, 0, 60, none, 150, 0, 0, 0, 0, "ullage_only",
        some ⟨some (100, 200), none, none⟩, none⟩ := by
  constructor
  · intro r1 r2 t v1 v2 col h1 h12 hv1 hv2
    have ha : r1.ullage < (r1.ullage + r2.ullage) / 2 := by linarith
    have hb : (r1.ullage + r2.ullage) / 2 < r2.ullage := by linarith
    have hub : getUllageBounds [r1, r2] ((r1.ullage + r2.ullage) / 2) =
        .bracket r1.ullage r2.ullage := by
      simp [getUllageBounds, distinctSortedUllages, insertSortedUnique,
        ullageBoundsCore, memUllage, findUllageBracket, h12, ha, hb,
        ha.ne, hb.ne, ha.ne', hb.ne', not_lt_of_gt h12]
    have hrows : sortSRowsByUllage
        (filterSRowsByUllages r1.ullage r2.ullage [r1, r2]) = [r1, r2] := by
      simp [filterSRowsByUllages, sortSRowsByUllage, insertSRowByUllage,
        le_of_lt h12]
    simp [getSoundingDataWithInterpolation, getSoundingWithUllageInterpolation,
      h1, hub, hrows, Except.map, hv1, hv2, jsNumOr0,
      linearInterpolate_of_ne h12.ne]
    have hne : r2.ullage - r1.ullage ≠ 0 := sub_ne_zero.mpr (ne_of_gt h12)
    field_simp
    ring
  · norm_num [getCompleteSoundingData, getSoundingDataWithInterpolation,
      getSoundingWithUllageInterpolation, getTrimBounds, axisBounds,
      findAxisValue, trimRanges, getUllageBounds, ullageBoundsCore,
      distinctSortedUllages, memUllage, findUllageBracket, insertSortedUnique,
      sortSRowsByUllage, insertSRowByUllage, filterSRowsByUllages,
      scenarioRow100, scenarioRow200, linearInterpolate, jsNumOr0,
      jsNumOrNull, jsRoundOrNull]

/-- Witness for C9's generic part: the scenario table itself, through the
generic midpoint statement. -/
theorem midpoint_interpolation_witness :
    (getSoundingDataWithInterpolation [scenarioRow100, scenarioRow200]
        ((scenarioRow100.ullage + scenarioRow200.ullage) / 2) 0).map
      (fun r => (r.volume, r.interpolation_used)) =
      .ok ((50 + 70) / 2, "ullage_only") :=
  midpoint_interpolation.1 scenarioRow100 scenarioRow200 0 50 70 .trim_0_0
    (by decide) (by decide) (by rfl) (by rfl)
theorem findAxisValue_eq_none {C : Type} {t : ℚ} (l : List (ℚ × C))
    (h : ∀ p ∈ l, p.1 ≠ t) : findAxisValue t l = none := by
  induction l with
  | nil => rfl
  | cons a rest ih =>
    have ha : a.1 ≠ t := h a (List.mem_cons_self a rest)
    simp only [findAxisValue, if_neg ha]
    exact ih (fun q hq => h q (List.mem_cons_of_mem a hq))

theorem findAxisValue_eq_some {C : Type} {l : List (ℚ × C)}
    (hnd : (l.map Prod.fst).Nodup) {p : ℚ × C} (hp : p ∈ l) :
    findAxisValue p.1 l = some p := by
  induction l with
  | nil => cases hp
  | cons a rest ih =>
    rcases List.mem_cons.mp hp with rfl | hmem
    · simp [findAxisValue]
    · have hmf : p.1 ∈ rest.map Prod.fst := List.mem_map_of_mem Prod.fst hmem
      rw [List.map_cons] at hnd
      have hcons := List.nodup_cons.mp hnd
      have hne : a.1 ≠ p.1 := fun he => hcons.1 (he ▸ hmf)
      simp only [findAxisValue, if_neg hne]
      exact ih hcons.2 hmem

theorem findAdjacentBracket_eq_none_low {C : Type} {t : ℚ} :
    ∀ (l : List (ℚ × C)), (∀ p ∈ l, ¬ p.1 < t) → findAdjacentBracket t l = none
  | [] => fun _ => rfl
  | [a] => fun _ => rfl
  | a :: b :: rest => fun h => by
      have ha : ¬ a.1 < t := h a (by simp)
      rw [findAdjacentBracket, if_neg (fun hc => ha hc.1)]
      exact findAdjacentBracket_eq_none_low (b :: rest)
        (fun p hp => h p (List.mem_cons_of_mem a hp))

theorem findAdjacentBracket_eq_none_high {C : Type} {t : ℚ} :
    ∀ (l : List (ℚ × C)), (∀ p ∈ l, ¬ t < p.1) → findAdjacentBracket t l = none
  | [] => fun _ => rfl
  | [a] => fun _ => rfl
  | a :: b :: rest => fun h => by
      have hb : ¬ t < b.1 := h b (by simp)
      rw [findAdjacentBracket, if_neg (fun hc => hb hc.2)]
      exact findAdjacentBracket_eq_none_high (b :: rest)
        (fun p hp => h p (List.mem_cons_of_mem a hp))

theorem pairwise_fst_head_le {C : Type} (b : ℚ × C) (rest : List (ℚ × C))
    (hp : ((b :: rest).map Prod.fst).Pairwise (· < ·)) (j : ℕ)
    (hj : j < (b :: rest).length) : b.1 ≤ ((b :: rest).get ⟨j, hj⟩).1 := by
  match j with
  | 0 => exact le_refl _
  | k + 1 =>
    have hl := List.pairwise_map.mp hp
    have hk : k < rest.length := Nat.lt_of_succ_lt_succ hj
    have hmem : rest.get ⟨k, hk⟩ ∈ rest := rest.get_mem _ _
    exact le_of_lt ((List.pairwise_cons.mp hl).1 _ hmem)

theorem pairwise_fst_get_lt {C : Type} (l : List (ℚ × C))
    (hp : (l.map Prod.fst).Pairwise (· < ·)) {j k : ℕ} (hjk : j < k)
    (hk : k < l.length) :
    (l.get ⟨j, lt_trans hjk hk⟩).1 < (l.get ⟨k, hk⟩).1 := by
  have hl := List.pairwise_map.mp hp
  exact List.pairwise_iff_get.mp hl ⟨j, lt_trans hjk hk⟩ ⟨k, hk⟩ hjk

theorem findAdjacentBracket_eq_some {C : Type} {t : ℚ} :
    ∀ (l : List (ℚ × C)), ((l.map Prod.fst).Pairwise (· < ·)) →
    ∀ (i : ℕ) (hi : i + 1 < l.length),
    (l.get ⟨i, Nat.lt_of_succ_lt hi⟩).1 < t →
    t < (l.get ⟨i + 1, hi⟩).1 →
    findAdjacentBracket t l =
      some (l.get ⟨i, Nat.lt_of_succ_lt hi⟩, l.get ⟨i + 1, hi⟩)
  | [], _, i, hi, _, _ => absurd hi (by simp)
  | [a], _, i, hi, _, _ => absurd hi (by simp)
  | a :: b :: rest, hp, 0, hi, h1, h2 => by
      rw [findAdjacentBracket, if_pos ⟨h1, h2⟩]
      rfl
  | a :: b :: rest, hp, j + 1, hi, h1, h2 => by
      have hp' : ((b :: rest).map Prod.fst).Pairwise (· < ·) :=
        (List.pairwise_cons.mp (by simpa using hp)).2
      have hj : j < (b :: rest).length := Nat.lt_of_succ_lt (by simpa using hi)
      have hble : b.1 ≤ ((b :: rest).get ⟨j, hj⟩).1 :=
        pairwise_fst_head_le b rest hp' j hj
      have h1' : ((b :: rest).get ⟨j, hj⟩).1 < t := h1
      have hnb : ¬ t < b.1 := fun hc => absurd (lt_of_le_of_lt hble h1') (lt_asymm hc)
      rw [findAdjacentBracket, if_neg (fun hc => hnb hc.2)]
      exact findAdjacentBracket_eq_some (b :: rest) hp' j (by simpa using hi) h1 h2

theorem between_ne_levels {C : Type} (l : List (ℚ × C))
    (hp : (l.map Prod.fst).Pairwise (· < ·)) {t : ℚ} (i : ℕ)
    (hi : i + 1 < l.length)
    (h1 : (l.get ⟨i, Nat.lt_of_succ_lt hi⟩).1 < t)
    (h2 : t < (l.get ⟨i + 1, hi⟩).1) :
    ∀ p ∈ l, p.1 ≠ t := by
  intro p hmem heq
  obtain ⟨⟨j, hj⟩, hjp⟩ := List.mem_iff_get.mp hmem
  rcases Nat.lt_or_ge j (i + 1) with hcase | hcase
  · rcases Nat.lt_or_ge j i with hji | hji
    · have := pairwise_fst_get_lt l hp hji (Nat.lt_of_succ_lt hi)
      rw [hjp, heq] at this
      exact absurd (lt_trans this h1) (lt_irrefl t)
    · have hj_eq : j = i := by omega
      subst hj_eq
      rw [hjp, heq] at h1
      exact absurd h1 (lt_irrefl t)
  · rcases Nat.lt_or_ge (i + 1) j with hji | hji
    · have := pairwise_fst_get_lt l hp hji hj
      rw [hjp, heq] at this
      exact absurd (lt_trans h2 this) (lt_irrefl t)
    · have hj_eq : j = i + 1 := by omega
      subst hj_eq
      rw [hjp, heq] at h2
      exact absurd h2 (lt_irrefl t)

theorem axisBounds_exact_of_mem {C : Type} (big small : String)
    (ranges : List (ℚ × C)) (hnd : (ranges.map Prod.fst).Nodup)
    {p : ℚ × C} (hp : p ∈ ranges) :
    axisBounds big small ranges p.1 = .exact p.2 := by
  unfold axisBounds
  rw [findAxisValue_eq_some hnd hp]

theorem axisBounds_bracket {C : Type} (big small : String)
    (ranges : List (ℚ × C)) (hpw : (ranges.map Prod.fst).Pairwise (· < ·))
    {t : ℚ} (i : ℕ) (hi : i + 1 < ranges.length)
    (h1 : (ranges.get ⟨i, Nat.lt_of_succ_lt hi⟩).1 < t)
    (h2 : t < (ranges.get ⟨i + 1, hi⟩).1) :
    axisBounds big small ranges t =
      .bracket (ranges.get ⟨i, Nat.lt_of_succ_lt hi⟩) (ranges.get ⟨i + 1, hi⟩) := by
  unfold axisBounds
  rw [findAxisValue_eq_none ranges (between_ne_levels ranges hpw i hi h1 h2),
    findAdjacentBracket_eq_some ranges hpw i hi h1 h2]

theorem axisBounds_below {C : Type} (big small : String)
    (ranges : List (ℚ × C)) {t : ℚ}
    (hall : ∀ p ∈ ranges, t < p.1)
    (hhead : t < (ranges.map Prod.fst).headD 0) :
    axisBounds big small ranges t =
      .outOfRange (big ++ " " ++ toString t ++ " is below minimum supported " ++
        small ++ " " ++ toString ((ranges.map Prod.fst).headD 0)) := by
  unfold axisBounds
  rw [findAxisValue_eq_none ranges (fun p hp => (hall p hp).ne'),
    findAdjacentBracket_eq_none_low ranges (fun p hp => (hall p hp).asymm),
    if_pos hhead]

theorem axisBounds_above {C : Type} (big small : String)
    (ranges : List (ℚ × C)) {t : ℚ}
    (hall : ∀ p ∈ ranges, p.1 < t)
    (hhead : ¬ t < (ranges.map Prod.fst).headD 0) :
    axisBounds big small ranges t =
      .outOfRange (big ++ " " ++ toString t ++ " is above maximum supported " ++
        small ++ " " ++ toString ((ranges.map Prod.fst).getLastD 0)) := by
  unfold axisBounds
  rw [findAxisValue_eq_none ranges (fun p hp => (hall p hp).ne),
    findAdjacentBracket_eq_none_high ranges (fun p hp => (hall p hp).asymm),
    if_neg hhead]

/-- C5: for every trim (resp. heel) value, the Axis Resolver returns
`Exact` with the matched level's column whenever the value equals one of the
13 (resp. 11) fixed axis levels — so querying exactly at the minimum or
maximum level succeeds; returns the `Bracket` of the unique adjacent pair
of levels whenever the value lies strictly between them; and returns
`OutOfRange` with a message naming the violated bound and the offending
input whenever the value is below the minimum (-4 resp. -3) or above the
maximum (4 resp. 3). -/
theorem axis_resolver_trichotomy :
    ((∀ p ∈ trimRanges, getTrimBounds p.1 = .exact p.2) ∧
     (∀ (t : ℚ) (i : ℕ) (hi : i + 1 < trimRanges.length),
       (trimRanges.get ⟨i, Nat.lt_of_succ_lt hi⟩).1 < t →
       t < (trimRanges.get ⟨i + 1, hi⟩).1 →
       getTrimBounds t = .bracket (trimRanges.get ⟨i, Nat.lt_of_succ_lt hi⟩)
         (trimRanges.get ⟨i + 1, hi⟩)) ∧
     (∀ t : ℚ, t < -4 → getTrimBounds t = .outOfRange
        ("Trim" ++ " " ++ toString t ++ " is below minimum supported " ++
          "trim" ++ " " ++ toString ((-4 : ℚ)))) ∧
     (∀ t : ℚ, 4 < t → getTrimBounds t = .outOfRange
        ("Trim" ++ " " ++ toString t ++ " is above maximum supported " ++
          "trim" ++ " " ++ toString ((4 : ℚ))))) ∧
    ((∀ p ∈ heelRanges, getHeelBounds p.1 = .exact p.2) ∧
     (∀ (t : ℚ) (i : ℕ) (hi : i + 1 < heelRanges.length),
       (heelRanges.get ⟨i, Nat.lt_of_succ_lt hi⟩).1 < t →
       t < (heelRanges.get ⟨i + 1, hi⟩).1 →
       getHeelBounds t = .bracket (heelRanges.get ⟨i, Nat.lt_of_succ_lt hi⟩)
         (heelRanges.get ⟨i + 1, hi⟩)) ∧
     (∀ t : ℚ, t < -3 → getHeelBounds t = .outOfRange
        ("Heel" ++ " " ++ toString t ++ " is below minimum supported " ++
          "heel" ++ " " ++ toString ((-3 : ℚ)))) ∧
     (∀ t : ℚ, 3 < t → getHeelBounds t = .outOfRange
        ("Heel" ++ " " ++ toString t ++ " is above maximum supported " ++
          "heel" ++ " " ++ toString ((3 : ℚ))))) := by
  refine ⟨⟨?_, ?_, ?_, ?_⟩, ⟨?_, ?_, ?_, ?_⟩⟩
  · intro p hp
    exact axisBounds_exact_of_mem "Trim" "trim" trimRanges (by decide) hp
  · intro t i hi h1 h2
    exact axisBounds_bracket "Trim" "trim" trimRanges (by decide) i hi h1 h2
  · intro t ht
    exact axisBounds_below "Trim" "trim" trimRanges
      (fun p hp => by fin_cases hp <;> exact lt_of_lt_of_le ht (by decide)) ht
  · intro t ht
    exact axisBounds_above "Trim" "trim" trimRanges
      (fun p hp => by fin_cases hp <;> exact lt_of_le_of_lt (by decide) ht)
      ((lt_trans (by decide : (-4 : ℚ) < 4) ht).asymm)
  · intro p hp
    exact axisBounds_exact_of_mem "Heel" "heel" heelRanges (by decide) hp
  · intro t i hi h1 h2
    exact axisBounds_bracket "Heel" "heel" heelRanges (by decide) i hi h1 h2
  · intro t ht
    exact axisBounds_below "Heel" "heel" heelRanges
      (fun p hp => by fin_cases hp <;> exact lt_of_lt_of_le ht (by decide)) ht
  · intro t ht
    exact axisBounds_above "Heel" "heel" heelRanges
      (fun p hp => by fin_cases hp <;> exact lt_of_le_of_lt (by decide) ht)
      ((lt_trans (by decide : (-3 : ℚ) < 3) ht).asymm)

/-- Witness for C5: one exact, one bracketed, one below-minimum and one
above-maximum query on each axis. -/
theorem axis_resolver_trichotomy_witness :
    getTrimBounds (-4) = .exact .trim_minus_4_0 ∧
    getTrimBounds (mkRat 1 4) =
      .bracket (0, .trim_0_0) (mkRat 1 2, .trim_plus_0_5) ∧
    getTrimBounds (-5) = .outOfRange
      ("Trim" ++ " " ++ toString ((-5 : ℚ)) ++ " is below minimum supported " ++
        "trim" ++ " " ++ toString ((-4 : ℚ))) ∧
    getTrimBounds 5 = .outOfRange
      ("Trim" ++ " " ++ toString ((5 : ℚ)) ++ " is above maximum supported " ++
        "trim" ++ " " ++ toString ((4 : ℚ))) ∧
    getHeelBounds 3 = .exact .heel_plus_3_0 ∧
    getHeelBounds (mkRat 1 4) =
      .bracket (0, .heel_0_0) (mkRat 1 2, .heel_plus_0_5) ∧
    getHeelBounds (-4) = .outOfRange
      ("Heel" ++ " " ++ toString ((-4 : ℚ)) ++ " is below minimum supported " ++
        "heel" ++ " " ++ toString ((-3 : ℚ))) ∧
    getHeelBounds 4 = .outOfRange
      ("Heel" ++ " " ++ toString ((4 : ℚ)) ++ " is above maximum supported " ++
        "heel" ++ " " ++ toString ((3 : ℚ))) := by
  obtain ⟨⟨te, tb, tlo, thi⟩, ⟨he, hb, hlo, hhi⟩⟩ := axis_resolver_trichotomy
  refine ⟨te (-4, .trim_minus_4_0) (by decide), ?_, tlo (-5) (by decide),
    thi 5 (by decide), he (3, .heel_plus_3_0) (by decide), ?_,
    hlo (-4) (by decide), hhi 4 (by decide)⟩
  · exact tb (mkRat 1 4) 6 (by decide) (by decide) (by decide)
  · exact hb (mkRat 1 4) 5 (by decide) (by decide) (by decide)

def fillSRow (r : SRow) : SRow :=
  ⟨r.ullage, fun c => some (jsNumOr0 (r.trim c)), some (jsNumOr0 r.sound),
    some (jsNumOr0 r.lcg), some (jsNumOr0 r.tcg), some (jsNumOr0 r.vcg),
    some (jsNumOr0 r.iy)⟩

def fillHRow (r : HRow) : HRow :=
  ⟨r.ullage, fun c => some (jsNumOr0 (r.heel c))⟩

theorem jsNumOr0_fill (v : Option ℚ) :
    jsNumOr0 (some (jsNumOr0 v)) = jsNumOr0 v := rfl

theorem jsNumOrNull_fill (v : Option ℚ) :
    jsNumOrNull (some (jsNumOr0 v)) = jsNumOrNull v := by
  cases v with
  | none => simp [jsNumOrNull, jsNumOr0]
  | some q => by_cases h : q = 0 <;> simp [jsNumOrNull, jsNumOr0, h]

theorem fillSRow_ullage (r : SRow) : (fillSRow r).ullage = r.ullage := rfl

theorem fillHRow_ullage (r : HRow) : (fillHRow r).ullage = r.ullage := rfl

theorem getUllageBounds_fill (l : List SRow) (u : ℚ) :
    getUllageBounds (l.map fillSRow) u = getUllageBounds l u := by
  unfold getUllageBounds
  rw [List.map_map]
  rfl

theorem getHeelUllageBounds_fill (l : List HRow) (u : ℚ) :
    getHeelUllageBounds (l.map fillHRow) u = getHeelUllageBounds l u := by
  unfold getHeelUllageBounds
  rw [List.map_map]
  rfl

theorem findSRowByUllage_fill (u : ℚ) (l : List SRow) :
    findSRowByUllage u (l.map fillSRow) =
      (findSRowByUllage u l).map fillSRow := by
  induction l with
  | nil => rfl
  | cons a rest ih =>
    by_cases h : a.ullage = u <;>
      simp [findSRowByUllage, fillSRow_ullage, h, ih]

theorem findHRowByUllage_fill (u : ℚ) (l : List HRow) :
    findHRowByUllage u (l.map fillHRow) =
      (findHRowByUllage u l).map fillHRow := by
  induction l with
  | nil => rfl
  | cons a rest ih =>
    by_cases h : a.ullage = u <;>
      simp [findHRowByUllage, fillHRow_ullage, h, ih]

theorem filterSRowsByUllages_fill (a b : ℚ) (l : List SRow) :
    filterSRowsByUllages a b (l.map fillSRow) =
      (filterSRowsByUllages a b l).map fillSRow := by
  induction l with
  | nil => rfl
  | cons r rest ih =>
    by_cases h : r.ullage = a ∨ r.ullage = b <;>
      simp [filterSRowsByUllages, fillSRow_ullage, h, ih]

theorem filterHRowsByUllages_fill (a b : ℚ) (l : List HRow) :
    filterHRowsByUllages a b (l.map fillHRow) =
      (filterHRowsByUllages a b l).map fillHRow := by
  induction l with
  | nil => rfl
  | cons r rest ih =>
    by_cases h : r.ullage = a ∨ r.ullage = b <;>
      simp [filterHRowsByUllages, fillHRow_ullage, h, ih]

theorem insertSRowByUllage_fill (r : SRow) (l : List SRow) :
    insertSRowByUllage (fillSRow r) (l.map fillSRow) =
      (insertSRowByUllage r l).map fillSRow := by
  induction l with
  | nil => rfl
  | cons s rest ih =>
    by_cases h : r.ullage ≤ s.ullage <;>
      simp [insertSRowByUllage, fillSRow_ullage, h, ih]

theorem insertHRowByUllage_fill (r : HRow) (l : List HRow) :
    insertHRowByUllage (fillHRow r) (l.map fillHRow) =
      (insertHRowByUllage r l).map fillHRow := by
  induction l with
  | nil => rfl
  | cons s rest ih =>
    by_cases h : r.ullage ≤ s.ullage <;>
      simp [insertHRowByUllage, fillHRow_ullage, h, ih]

theorem sortSRowsByUllage_fill (l : List SRow) :
    sortSRowsByUllage (l.map fillSRow) = (sortSRowsByUllage l).map fillSRow := by
  unfold sortSRowsByUllage
  induction l with
  | nil => rfl
  | cons r rest ih => simp [ih, insertSRowByUllage_fill]

theorem sortHRowsByUllage_fill (l : List HRow) :
    sortHRowsByUllage (l.map fillHRow) = (sortHRowsByUllage l).map fillHRow := by
  unfold sortHRowsByUllage
  induction l with
  | nil => rfl
  | cons r rest ih => simp [ih, insertHRowByUllage_fill]

theorem getSoundingWithUllageInterpolation_fill (l : List SRow) (u : ℚ)
    (col : TrimCol) :
    getSoundingWithUllageInterpolation (l.map fillSRow) u col =
      getSoundingWithUllageInterpolation l u col := by
  unfold getSoundingWithUllageInterpolation
  rw [getUllageBounds_fill]
  cases getUllageBounds l u with
  | outOfRange m => rfl
  | exact u' =>
    dsimp only
    rw [findSRowByUllage_fill]
    cases findSRowByUllage u' l with
    | none => rfl
    | some row => simp [fillSRow, jsNumOr0_fill, jsNumOrNull_fill]
  | bracket a b =>
    dsimp only
    rw [filterSRowsByUllages_fill, sortSRowsByUllage_fill]
    cases sortSRowsByUllage (filterSRowsByUllages a b l) with
    | nil => rfl
    | cons r1 tail =>
      cases tail with
      | nil => rfl
      | cons r2 tail2 =>
        cases tail2 with
        | nil => simp [fillSRow, jsNumOr0_fill]
        | cons r3 tail3 => rfl

theorem getSoundingDataWithInterpolation_fill (l : List SRow) (u t : ℚ) :
    getSoundingDataWithInterpolation (l.map fillSRow) u t =
      getSoundingDataWithInterpolation l u t := by
  unfold getSoundingDataWithInterpolation
  cases getTrimBounds t with
  | outOfRange m => rfl
  | exact col => exact getSoundingWithUllageInterpolation_fill l u col
  | bracket lo hi_ =>
    dsimp only
    rw [getUllageBounds_fill]
    cases getUllageBounds l u with
    | outOfRange m => rfl
    | exact u' =>
      dsimp only
      rw [findSRowByUllage_fill]
      cases findSRowByUllage u' l with
      | none => rfl
      | some row => simp [fillSRow, jsNumOr0_fill, jsNumOrNull_fill]
    | bracket a b =>
      dsimp only
      rw [filterSRowsByUllages_fill, sortSRowsByUllage_fill]
      cases sortSRowsByUllage (filterSRowsByUllages a b l) with
      | nil => rfl
      | cons r1 tail =>
        cases tail with
        | nil => rfl
        | cons r2 tail2 =>
          cases tail2 with
          | nil => simp [fillSRow, jsNumOr0_fill]
          | cons r3 tail3 => rfl

theorem getHeelCorrectionWithUllageInterpolation_fill (l : List HRow) (u : ℚ)
    (col : HeelCol) :
    getHeelCorrectionWithUllageInterpolation (l.map fillHRow) u col =
      getHeelCorrectionWithUllageInterpolation l u col := by
  unfold getHeelCorrectionWithUllageInterpolation
  rw [getHeelUllageBounds_fill]
  cases getHeelUllageBounds l u with
  | outOfRange m => rfl
  | exact u' =>
    dsimp only
    rw [findHRowByUllage_fill]
    cases findHRowByUllage u' l with
    | none => rfl
    | some row => simp [fillHRow, jsNumOr0_fill]
  | bracket a b =>
    dsimp only
    rw [filterHRowsByUllages_fill, sortHRowsByUllage_fill]
    cases sortHRowsByUllage (filterHRowsByUllages a b l) with
    | nil => rfl
    | cons r1 tail =>
      cases tail with
      | nil => rfl
      | cons r2 tail2 =>
        cases tail2 with
        | nil => simp [fillHRow, jsNumOr0_fill]
        | cons r3 tail3 => rfl

theorem getHeelCorrectionWithInterpolation_fill (l : List HRow) (u h : ℚ) :
    getHeelCorrectionWithInterpolation (l.map fillHRow) u h =
      getHeelCorrectionWithInterpolation l u h := by
  unfold getHeelCorrectionWithInterpolation
  cases getHeelBounds h with
  | outOfRange m => rfl
  | exact col => exact getHeelCorrectionWithUllageInterpolation_fill l u col
  | bracket lo hi_ =>
    dsimp only
    rw [getHeelUllageBounds_fill]
    cases getHeelUllageBounds l u with
    | outOfRange m => rfl
    | exact u' =>
      dsimp only
      rw [findHRowByUllage_fill]
      cases findHRowByUllage u' l with
      | none => rfl
      | some row => simp [fillHRow, jsNumOr0_fill]
    | bracket a b =>
      dsimp only
      rw [filterHRowsByUllages_fill, sortHRowsByUllage_fill]
      cases sortHRowsByUllage (filterHRowsByUllages a b l) with
      | nil => rfl
      | cons r1 tail =>
        cases tail with
        | nil => rfl
        | cons r2 tail2 =>
          cases tail2 with
          | nil => simp [fillHRow, jsNumOr0_fill]
          | cons r3 tail3 => rfl

/-- C10: in every path of the Sounding Evaluator and of the Heel Correction
Evaluator, stored cells that are missing / null / non-numeric are read as
`0` (and a stored `0` stays `0`) before interpolation: replacing every
cell of every row by the `0`-defaulted value it is read as (`fillSRow` /
`fillHRow`) changes no evaluator output whatsoever — in particular a query
over rows with missing or corrupt cells succeeds exactly when the same
query over the `0`-filled rows does, with the same numeric result, and
never turns into a configuration error. -/
theorem missing_cells_coerced_to_zero (srows : List SRow) (hrows : List HRow)
    (u t h : ℚ) (col : TrimCol) (hcol : HeelCol) :
    getSoundingWithUllageInterpolation (srows.map fillSRow) u col =
      getSoundingWithUllageInterpolation srows u col ∧
    getSoundingDataWithInterpolation (srows.map fillSRow) u t =
      getSoundingDataWithInterpolation srows u t ∧
    getHeelCorrectionWithUllageInterpolation (hrows.map fillHRow) u hcol =
      getHeelCorrectionWithUllageInterpolation hrows u hcol ∧
    getHeelCorrectionWithInterpolation (hrows.map fillHRow) u h =
      getHeelCorrectionWithInterpolation hrows u h :=
  ⟨getSoundingWithUllageInterpolation_fill srows u col,
    getSoundingDataWithInterpolation_fill srows u t,
    getHeelCorrectionWithUllageInterpolation_fill hrows u hcol,
    getHeelCorrectionWithInterpolation_fill hrows u h⟩
